import Mathlib

/-!
Shallow embedding of `src/CorleoneStockCollector.py` (repository StockShii).

The script is a CLI stock tool: it loads a market catalog, prompts for a
market, tickers and a date range, fetches daily OHLCV series through a
CSV file cache (`download_and_cache_data`), and renders one of four plot
variants.  Pandas DataFrames are modelled as lists of rows with exact
rational prices; the filesystem cache is an association list from file
path to the persisted series; the yfinance provider is an explicit
function parameter returning either a series (possibly empty) or an
error; interactive prompts become functions from the input string to an
`Option` result where `none` models "rejected, re-prompt".
-/

namespace StockShii

/-- One daily bar of a time series: the columns of the cached CSV
(Date index plus Open/High/Low/Close/Volume), prices as exact rationals. -/
structure Row where
  date : String
  openPrice : ℚ
  high : ℚ
  low : ℚ
  close : ℚ
  volume : ℚ
deriving DecidableEq, Repr

/-- A pandas DataFrame of daily bars, in date order. -/
abbrev Series := List Row

/-- The filesystem cache: file path ↦ persisted series (`cache/` directory). -/
abbrev Cache := List (String × Series)

/-- Result of one `yf.download(ticker, start, end)` call: either a
DataFrame (possibly empty) or a raised exception. -/
inductive ProviderResult where
  | success (s : Series)
  | failure
deriving DecidableEq, Repr

/-- The external provider: ticker → start → end → result. -/
abbrev Provider := String → String → String → ProviderResult

/-- Python `str.replace(a, b)` for one-character pattern and replacement:
replace every occurrence of `a` by `b`. -/
def replaceChar (a b : Char) (s : String) : String :=
  ⟨s.data.map (fun c => if c = a then b else c)⟩

/-- Line 120: `sanitized_ticker = ticker.replace(".", "_")`. -/
def sanitize (t : String) : String := replaceChar '.' '_' t

/-- Line 121: `file_name = f"{sanitized_ticker}_{start_date}_{end_date}.csv"`. -/
def cacheFileName (ticker startDate endDate : String) : String :=
  sanitize ticker ++ "_" ++ startDate ++ "_" ++ endDate ++ ".csv"

/-- Line 122: `file_path = os.path.join(CACHE_DIR, file_name)` with
`CACHE_DIR = 'cache'`. -/
def cacheFilePath (ticker startDate endDate : String) : String :=
  "cache/" ++ cacheFileName ticker startDate endDate

/-- Insert/overwrite a key in an association list: Python dict assignment
`m[k] = v` (and, for the cache, `to_csv` overwriting a file). A new key is
appended at the end, matching dict insertion order. -/
def dictInsert (m : List (String × Series)) (k : String) (v : Series) : List (String × Series) :=
  match m with
  | [] => [(k, v)]
  | (k0, v0) :: rest => if k0 = k then (k, v) :: rest else (k0, v0) :: dictInsert rest k v

/-- Outcome of the per-ticker body of the loop in `download_and_cache_data`
(lines 119–139): the series obtained for this ticker (`none` when the
ticker was skipped), the cache after the iteration, and whether the
provider (`yf.download`) was invoked. -/
structure FetchOutcome where
  data : Option Series
  cache : Cache
  providerCalled : Bool
deriving Repr

/-- Lines 120–139, one iteration of the loop in `download_and_cache_data`:
if the cache file exists, load it (no provider call, no freshness check);
otherwise call the provider; an empty result or a raised error skips the
ticker without caching; a non-empty result is persisted and returned. -/
def fetchOne (P : Provider) (cache : Cache) (ticker startDate endDate : String) : FetchOutcome :=
  match cache.lookup (cacheFilePath ticker startDate endDate) with
  | some d => ⟨some d, cache, false⟩
  | none =>
    match P ticker startDate endDate with
    | .failure => ⟨none, cache, true⟩
    | .success d =>
      if d.isEmpty then ⟨none, cache, true⟩
      else ⟨some d, dictInsert cache (cacheFilePath ticker startDate endDate) d, true⟩

/-- The `for ticker in tickers` loop of `download_and_cache_data`
(lines 118–139), with the `data` dict and the cache threaded through. -/
def downloadLoop (P : Provider) (startDate endDate : String) :
    List String → List (String × Series) → Cache → List (String × Series) × Cache
  | [], data, cache => (data, cache)
  | t :: ts, data, cache =>
    let r := fetchOne P cache t startDate endDate
    let data1 := match r.data with
      | some d => dictInsert data t d
      | none => data
    downloadLoop P startDate endDate ts data1 r.cache

/-- Lines 108–140, `download_and_cache_data(tickers, start_date, end_date)`:
returns the ticker ↦ series mapping and the final cache state. -/
def download_and_cache_data (P : Provider) (cache : Cache) (tickers : List String)
    (startDate endDate : String) : List (String × Series) × Cache :=
  downloadLoop P startDate endDate tickers [] cache

/-- `True` when the provider would skip this ticker in the no-cache branch:
it raises, or returns an empty DataFrame (lines 131–138). -/
def providerFails (P : Provider) (t startDate endDate : String) : Bool :=
  match P t startDate endDate with
  | .failure => true
  | .success d => d.isEmpty

/-- The mapping `download_and_cache_data` is specified to produce on a cold
cache with collision-free keys: one entry per ticker whose provider call
yields a non-empty series, in ticker order. -/
def expectedData (P : Provider) (startDate endDate : String) (tickers : List String) :
    List (String × Series) :=
  tickers.filterMap (fun t =>
    match P t startDate endDate with
    | .failure => none
    | .success d => if d.isEmpty then none else some (t, d))

/-- Python `str.strip()` with no argument: remove leading and trailing
whitespace (the inputs considered here use only ASCII whitespace). -/
def pyStrip (s : String) : String :=
  ⟨((s.data.dropWhile Char.isWhitespace).reverse.dropWhile Char.isWhitespace).reverse⟩

/-- Python `str.split(sep)` for a one-character separator, on the
character list: split at every separator, keeping empty parts. -/
def splitCharAux (sep : Char) : List Char → List Char → List (List Char)
  | [], acc => [acc.reverse]
  | c :: cs, acc =>
    if c = sep then acc.reverse :: splitCharAux sep cs [] else splitCharAux sep cs (c :: acc)

/-- Python `str.split(sep)` for a one-character separator. -/
def pySplit (sep : Char) (s : String) : List String :=
  (splitCharAux sep s.data []).map (fun cs => ⟨cs⟩)

/-- Value of a non-empty run of decimal digits. -/
def digitsToNat (cs : List Char) : Nat :=
  cs.foldl (fun n c => 10 * n + (c.toNat - '0'.toNat)) 0

/-- Non-empty and all decimal digits. -/
def isDigits (cs : List Char) : Bool := !cs.isEmpty && cs.all (·.isDigit)

/-- Recognizer for the language of `re.fullmatch(r'(\d+,?)*\d+', s)`
(line 89): a string over digits and commas that starts and ends with a
digit and has no two adjacent commas.  The flag records whether the
previous character was a digit (so a comma or the end of input is
allowed). -/
def digitsCommaAux : List Char → Bool → Bool
  | [], seenDigit => seenDigit
  | c :: cs, seenDigit =>
    if c.isDigit then digitsCommaAux cs true
    else if c = ',' then seenDigit && digitsCommaAux cs false
    else false

/-- Line 89: `re.fullmatch(r'(\d+,?)*\d+', choices.strip())`. -/
def matchesTickerInput (s : String) : Bool := digitsCommaAux s.data false

/-- Line 90: `int(num.strip())` for one comma-separated part; the part is
all digits whenever the full-match succeeded, so the fallback 0 is never
reached on accepted inputs. -/
def parseIndex (p : String) : Nat :=
  let cs := (pyStrip p).data
  if isDigits cs then digitsToNat cs else 0

/-- Line 90: `indices = [int(num.strip()) for num in choices.split(",")]`. -/
def parsedIndices (input : String) : List Nat := (pySplit ',' input).map parseIndex

/-- Lines 84–98, `get_ticker_choices`: one round of the prompt loop.
`none` models "invalid, re-prompt"; `some ts` models returning the
selected tickers.  The pattern is matched against the stripped input
while the split runs on the raw input, as in the source. -/
def get_ticker_choices (tickers : List String) (input : String) : Option (List String) :=
  if matchesTickerInput (pyStrip input) then
    if (parsedIndices input).all (fun idx => 1 ≤ idx && idx ≤ tickers.length) then
      some ((parsedIndices input).map (fun idx => tickers.getD (idx - 1) ""))
    else none
  else none

/-- The character-list shape of `re.fullmatch(r'\d{4}-\d{2}-\d{2}', s)`
(line 103): exactly four digits, a dash, two digits, a dash, two digits. -/
def isYMD (cs : List Char) : Bool :=
  match cs with
  | [y1, y2, y3, y4, h1, m1, m2, h2, d1, d2] =>
    y1.isDigit && y2.isDigit && y3.isDigit && y4.isDigit && (h1 = '-') &&
      m1.isDigit && m2.isDigit && (h2 = '-') && d1.isDigit && d2.isDigit
  | _ => false

/-- Lines 100–106, `get_date`: one round of the prompt loop on the
stripped input; `none` models "invalid format, re-prompt". -/
def get_date (input : String) : Option String :=
  let d := pyStrip input
  if isYMD d.data then some d else none

/-- Python `int(input())` at line 364: strip whitespace, optional single
sign, then a non-empty run of decimal digits (digit-group underscores
and non-ASCII digits are not used by any input considered here).
`none` models a raised, uncaught `ValueError`. -/
def pythonInt (s : String) : Option Int :=
  match (pyStrip s).data with
  | '-' :: rest => if isDigits rest then some (-(Int.ofNat (digitsToNat rest))) else none
  | '+' :: rest => if isDigits rest then some (Int.ofNat (digitsToNat rest)) else none
  | cs => if isDigits cs then some (Int.ofNat (digitsToNat cs)) else none

/-- The four renderers selectable at lines 362–377. -/
inductive PlotVariant where
  | line
  | styled
  | faceted
  | interactive
deriving DecidableEq, Repr

/-- Lines 362–377: `choice = int(input())` followed by the if/elif
dispatch.  A non-integer input raises an uncaught `ValueError`
(`Except.error ()`); an integer outside 1–4 falls to the `else` branch,
which prints a notice and renders the default matplotlib line plot. -/
def choosePlot (input : String) : Except Unit PlotVariant :=
  match pythonInt input with
  | none => .error ()
  | some n =>
    .ok (if n = 1 then .line
      else if n = 2 then .styled
      else if n = 3 then .faceted
      else if n = 4 then .interactive
      else .line)

/-- Python `<` on strings: lexicographic comparison by code point, a
proper prefix comparing below every extension. -/
def pyStrLtAux : List Char → List Char → Bool
  | [], [] => false
  | [], _ :: _ => true
  | _ :: _, [] => false
  | a :: as, b :: bs => if a = b then pyStrLtAux as bs else decide (a < b)

/-- Python `s < t` (so `s > t` is `pyStrLt t s`). -/
def pyStrLt (s t : String) : Bool := pyStrLtAux s.data t.data

/-- Outcome of `main` from the point where both dates have been collected
(lines 337–352): the date-order check, then the batch fetch, then the
empty-mapping check.  `exitDateOrder` and `exitNoData` model `sys.exit(1)`
at lines 340 and 352; `proceed` models reaching the filtering/rendering
stage with the fetched mapping and cache. -/
inductive RunOutcome where
  | exitDateOrder
  | exitNoData
  | proceed (data : List (String × Series)) (cache : Cache)
deriving Repr

/-- Lines 337–352 of `main`: `if start_date > end_date: sys.exit(1)`
(Python string `>` is lexicographic on code points), then
`download_and_cache_data`, then `if not data: sys.exit(1)`. -/
def mainAfterDates (P : Provider) (cache : Cache) (tickers : List String)
    (startDate endDate : String) : RunOutcome :=
  if pyStrLt endDate startDate then .exitDateOrder
  else if (download_and_cache_data P cache tickers startDate endDate).1.isEmpty then .exitNoData
  else .proceed (download_and_cache_data P cache tickers startDate endDate).1
    (download_and_cache_data P cache tickers startDate endDate).2

/-- pandas `xs.rolling(window=w).mean()`: entry `i` (0-based) is the mean
of the `w` values ending at `i` when at least `w` values are available,
and missing (NaN) otherwise.  The output has the same length as the
input — short windows yield missing values, rows are never dropped. -/
def rollingMean (w : Nat) (xs : List ℚ) : List (Option ℚ) :=
  (List.range xs.length).map (fun i =>
    if w ≤ i + 1 then some (((xs.drop (i + 1 - w)).take w).sum / w) else none)

/-- The `Close` column of a series. -/
def closes (s : Series) : List ℚ := s.map (·.close)

/-- Line 163: `stock_data['MA20'] = stock_data['Close'].rolling(window=20).mean()`. -/
def ma20 (s : Series) : List (Option ℚ) := rollingMean 20 (closes s)

/-- Line 164: the 50-period analogue. -/
def ma50 (s : Series) : List (Option ℚ) := rollingMean 50 (closes s)

/-- Lines 179, 231, 274, 310:
`safe_tickers = "_".join(tickers).replace("/", "_")` — only `/` is
replaced; `.` is left unchanged. -/
def safe_tickers (tickers : List String) : String :=
  replaceChar '/' '_' (String.intercalate "_" tickers)

/-- Line 180, `plot_data`: `f"stock_plot_{safe_tickers}_{start_date}_to_{end_date}.png"`. -/
def plotDataFilename (tickers : List String) (startDate endDate : String) : String :=
  "stock_plot_" ++ safe_tickers tickers ++ "_" ++ startDate ++ "_to_" ++ endDate ++ ".png"

/-- Line 232, `sns_plot_data`: same file name formula as `plot_data`. -/
def snsPlotDataFilename (tickers : List String) (startDate endDate : String) : String :=
  "stock_plot_" ++ safe_tickers tickers ++ "_" ++ startDate ++ "_to_" ++ endDate ++ ".png"

/-- Line 275, `plot_data_facets`: prefix `stock_plot_facets_`. -/
def plotDataFacetsFilename (tickers : List String) (startDate endDate : String) : String :=
  "stock_plot_facets_" ++ safe_tickers tickers ++ "_" ++ startDate ++ "_to_" ++ endDate ++ ".png"

/-- Line 311, `plot_data_interactive`: prefix `stock_plot_interactive_`
and `.html` extension. -/
def plotDataInteractiveFilename (tickers : List String) (startDate endDate : String) : String :=
  "stock_plot_interactive_" ++ safe_tickers tickers ++ "_" ++ startDate ++ "_to_" ++ endDate ++ ".html"

/-! ### Helper lemmas -/

/-- Looking up the inserted key finds the inserted value. -/
theorem lookup_dictInsert_self (m : List (String × Series)) (k : String) (v : Series) :
    (dictInsert m k v).lookup k = some v := by
  induction m with
  | nil => simp [dictInsert, List.lookup]
  | cons kv rest ih =>
    obtain ⟨k0, v0⟩ := kv
    by_cases h : k0 = k
    · subst h
      simp [dictInsert, List.lookup]
    · have hb : (k == k0) = false := beq_eq_false_iff_ne.mpr (Ne.symm h)
      simp [dictInsert, h, List.lookup, hb, ih]

/-- Inserting one key leaves lookups of other keys unchanged. -/
theorem lookup_dictInsert_ne (m : List (String × Series)) (k k' : String) (v : Series)
    (h : k' ≠ k) : (dictInsert m k v).lookup k' = m.lookup k' := by
  have hb : (k' == k) = false := beq_eq_false_iff_ne.mpr h
  induction m with
  | nil => simp [dictInsert, List.lookup, hb]
  | cons kv rest ih =>
    obtain ⟨k0, v0⟩ := kv
    by_cases h0 : k0 = k
    · subst h0
      simp [dictInsert, List.lookup, hb]
    · simp [dictInsert, h0, List.lookup, ih]

/-- Inserting a fresh key appends the binding at the end. -/
theorem dictInsert_eq_append (m : List (String × Series)) (k : String) (v : Series)
    (h : m.lookup k = none) : dictInsert m k v = m ++ [(k, v)] := by
  induction m with
  | nil => rfl
  | cons kv rest ih =>
    obtain ⟨k0, v0⟩ := kv
    by_cases h0 : k0 = k
    · subst h0
      simp [List.lookup] at h
    · have hb : (k == k0) = false := beq_eq_false_iff_ne.mpr (Ne.symm h0)
      simp only [List.lookup, hb] at h
      simp [dictInsert, h0, ih h]

/-- A key absent from the first list is looked up in the second. -/
theorem lookup_append_none (m1 m2 : List (String × Series)) (k : String)
    (h : m1.lookup k = none) : (m1 ++ m2).lookup k = m2.lookup k := by
  induction m1 with
  | nil => rfl
  | cons kv rest ih =>
    obtain ⟨k0, v0⟩ := kv
    by_cases h0 : k0 = k
    · subst h0
      simp [List.lookup] at h
    · have hb : (k == k0) = false := beq_eq_false_iff_ne.mpr (Ne.symm h0)
      simp only [List.lookup, hb] at h
      simp only [List.cons_append, List.lookup, hb]
      exact ih h

/-- The per-ticker fetch either leaves the cache alone or adds exactly
the snapshot for its own key. -/
theorem fetchOne_cache_cases (P : Provider) (c : Cache) (t s e : String) :
    (fetchOne P c t s e).cache = c ∨
    ∃ d : Series, (fetchOne P c t s e).cache = dictInsert c (cacheFilePath t s e) d := by
  unfold fetchOne
  rcases c.lookup (cacheFilePath t s e) with _ | d0
  · rcases P t s e with d1 | _
    · by_cases he : d1.isEmpty = true
      · dsimp only
        rw [if_pos he]
        exact Or.inl rfl
      · dsimp only
        rw [if_neg he]
        exact Or.inr ⟨d1, rfl⟩
    · exact Or.inl rfl
  · exact Or.inl rfl

/-- The per-ticker fetch never touches cache entries at other keys. -/
theorem fetchOne_cache_frame (P : Provider) (c : Cache) (t s e x : String)
    (hx : x ≠ cacheFilePath t s e) :
    ((fetchOne P c t s e).cache).lookup x = c.lookup x := by
  rcases fetchOne_cache_cases P c t s e with hcc | ⟨d, hcc⟩
  · rw [hcc]
  · rw [hcc]
    exact lookup_dictInsert_ne _ _ _ _ hx

/-- On a cache miss the per-ticker fetch is the provider branch. -/
theorem fetchOne_cold (P : Provider) (c : Cache) (t s e : String)
    (hc : c.lookup (cacheFilePath t s e) = none) :
    fetchOne P c t s e =
      match P t s e with
      | .failure => ⟨none, c, true⟩
      | .success d =>
        if d.isEmpty then ⟨none, c, true⟩
        else ⟨some d, dictInsert c (cacheFilePath t s e) d, true⟩ := by
  unfold fetchOne
  rw [hc]

/-- The batch loop leaves cache entries outside its tickers' keys alone. -/
theorem downloadLoop_cache_frame (P : Provider) (s e : String) (ts : List String) :
    ∀ (acc : List (String × Series)) (c : Cache) (x : String),
      x ∉ ts.map (fun t => cacheFilePath t s e) →
      ((downloadLoop P s e ts acc c).2).lookup x = c.lookup x := by
  induction ts with
  | nil =>
    intro acc c x _
    rfl
  | cons t ts ih =>
    intro acc c x hx
    have hxt : x ≠ cacheFilePath t s e := by
      intro h
      exact hx (by simp [h])
    have hxts : x ∉ ts.map (fun t => cacheFilePath t s e) := by
      intro h
      exact hx (List.mem_cons_of_mem _ h)
    simp only [downloadLoop]
    rw [ih _ _ _ hxts]
    exact fetchOne_cache_frame P c t s e x hxt

/-- Unfolding `expectedData` over the head ticker. -/
theorem expectedData_cons (P : Provider) (s e t : String) (ts : List String) :
    expectedData P s e (t :: ts) =
      match P t s e with
      | .failure => expectedData P s e ts
      | .success d =>
        if d.isEmpty then expectedData P s e ts else (t, d) :: expectedData P s e ts := by
  unfold expectedData
  rw [List.filterMap_cons]
  rcases P t s e with d | _
  · by_cases he : d.isEmpty = true
    · simp [he, List.isEmpty_iff.mp he]
    · have : ¬ d = [] := fun hcon => he (by simp [hcon])
      simp [he, this]
  · rfl

/-- On a cold cache with collision-free keys, the batch loop appends to
the accumulator exactly one entry per ticker whose provider call yields a
non-empty series, in order. -/
theorem downloadLoop_cold (P : Provider) (s e : String) (ts : List String) :
    ∀ (acc : List (String × Series)) (c : Cache),
      (ts.map (fun t => cacheFilePath t s e)).Nodup →
      (∀ t ∈ ts, c.lookup (cacheFilePath t s e) = none) →
      (∀ t ∈ ts, acc.lookup t = none) →
      (downloadLoop P s e ts acc c).1 = acc ++ expectedData P s e ts := by
  induction ts with
  | nil =>
    intro acc c _ _ _
    simp [downloadLoop, expectedData]
  | cons t ts ih =>
    intro acc c hk hc ha
    have hct : c.lookup (cacheFilePath t s e) = none := hc t (List.mem_cons_self t ts)
    have hknd : cacheFilePath t s e ∉ ts.map (fun u => cacheFilePath u s e) :=
      (List.nodup_cons.mp (by simpa using hk)).1
    have hktail : (ts.map (fun u => cacheFilePath u s e)).Nodup :=
      (List.nodup_cons.mp (by simpa using hk)).2
    have hctail : ∀ u ∈ ts, c.lookup (cacheFilePath u s e) = none :=
      fun u hu => hc u (List.mem_cons_of_mem _ hu)
    have hatail : ∀ u ∈ ts, acc.lookup u = none :=
      fun u hu => ha u (List.mem_cons_of_mem _ hu)
    simp only [downloadLoop]
    rw [fetchOne_cold P c t s e hct]
    rcases hp : P t s e with d1 | _
    · by_cases he : d1.isEmpty = true
      · dsimp only
        rw [if_pos he]
        dsimp only
        rw [ih acc c hktail hctail hatail, expectedData_cons, hp]
        dsimp only
        rw [if_pos he]
      · dsimp only
        rw [if_neg he]
        dsimp only
        have hat : acc.lookup t = none := ha t (List.mem_cons_self t ts)
        rw [dictInsert_eq_append acc t d1 hat]
        have hc1 : ∀ u ∈ ts,
            (dictInsert c (cacheFilePath t s e) d1).lookup (cacheFilePath u s e) = none := by
          intro u hu
          have hne : cacheFilePath u s e ≠ cacheFilePath t s e := by
            intro hcon
            exact hknd (hcon ▸ List.mem_map_of_mem _ hu)
          rw [lookup_dictInsert_ne _ _ _ _ hne]
          exact hctail u hu
        have ha1 : ∀ u ∈ ts, (acc ++ [(t, d1)]).lookup u = none := by
          intro u hu
          have hut : u ≠ t := by
            intro hcon
            exact hknd (by rw [← hcon]; exact List.mem_map_of_mem _ hu)
          rw [lookup_append_none acc _ u (hatail u hu)]
          have hb : (u == t) = false := beq_eq_false_iff_ne.mpr hut
          simp [List.lookup, hb]
        rw [ih (acc ++ [(t, d1)]) (dictInsert c (cacheFilePath t s e) d1) hktail hc1 ha1,
          expectedData_cons, hp]
        dsimp only
        rw [if_neg he, List.append_assoc]
        rfl
    · dsimp only
      rw [ih acc c hktail hctail hatail, expectedData_cons, hp]

/-- A ticker skipped by the provider leaves no snapshot behind: on a cold
cache with collision-free keys its cache key is still absent after the
whole batch. -/
theorem downloadLoop_not_cached (P : Provider) (s e : String) (ts : List String) :
    ∀ (acc : List (String × Series)) (c : Cache) (t : String),
      (ts.map (fun u => cacheFilePath u s e)).Nodup →
      (∀ u ∈ ts, c.lookup (cacheFilePath u s e) = none) →
      t ∈ ts → providerFails P t s e = true →
      ((downloadLoop P s e ts acc c).2).lookup (cacheFilePath t s e) = none := by
  induction ts with
  | nil =>
    intro acc c t _ _ ht _
    exact absurd ht (List.not_mem_nil t)
  | cons u ts ih =>
    intro acc c t hk hc ht hf
    have hknd : cacheFilePath u s e ∉ ts.map (fun v => cacheFilePath v s e) :=
      (List.nodup_cons.mp (by simpa using hk)).1
    have hktail : (ts.map (fun v => cacheFilePath v s e)).Nodup :=
      (List.nodup_cons.mp (by simpa using hk)).2
    simp only [downloadLoop]
    rcases List.mem_cons.mp ht with rfl | hts
    · have hct : c.lookup (cacheFilePath t s e) = none := hc t (List.mem_cons_self t ts)
      have hcache : (fetchOne P c t s e).cache = c := by
        rw [fetchOne_cold P c t s e hct]
        unfold providerFails at hf
        rcases hp : P t s e with d1 | _
        · rw [hp] at hf
          dsimp only
          rw [if_pos hf]
        · rfl
      rw [downloadLoop_cache_frame P s e ts _ _ _ hknd, hcache]
      exact hct
    · have hc1 : ∀ v ∈ ts,
          ((fetchOne P c u s e).cache).lookup (cacheFilePath v s e) = none := by
        intro v hv
        have hne : cacheFilePath v s e ≠ cacheFilePath u s e := by
          intro hcon
          exact hknd (hcon ▸ List.mem_map_of_mem _ hv)
        rw [fetchOne_cache_frame P c u s e _ hne]
        exact hc v (List.mem_cons_of_mem _ hv)
      exact ih _ _ t hktail hc1 hts hf

/-! ### Claim theorems -/

/-- C1: if a first call to the per-ticker fetch of `download_and_cache_data`
leaves a snapshot in the cache for the (ticker, start, end) key, then a
second call with identical arguments returns that same data, leaves the
cache unchanged and does not invoke the provider: it takes the cache-hit
branch unconditionally, with no freshness check. -/
theorem fetch_cache_hit_idempotent (P : Provider) (c : Cache) (t s e : String) (d : Series)
    (h : ((fetchOne P c t s e).cache).lookup (cacheFilePath t s e) = some d) :
    (fetchOne P c t s e).data = some d ∧
    fetchOne P ((fetchOne P c t s e).cache) t s e =
      ⟨some d, (fetchOne P c t s e).cache, false⟩ := by
  rcases hc : c.lookup (cacheFilePath t s e) with _ | d0
  · rcases hp : P t s e with d1 | _
    · by_cases he : d1.isEmpty = true
      · have hf : fetchOne P c t s e = ⟨none, c, true⟩ := by
          unfold fetchOne
          rw [hc, hp]
          dsimp only
          rw [if_pos he]
        rw [hf] at h
        dsimp only at h
        rw [hc] at h
        exact absurd h (by simp)
      · have hf : fetchOne P c t s e =
            ⟨some d1, dictInsert c (cacheFilePath t s e) d1, true⟩ := by
          unfold fetchOne
          rw [hc, hp]
          dsimp only
          rw [if_neg he]
        rw [hf] at h ⊢
        dsimp only at h ⊢
        rw [lookup_dictInsert_self] at h
        obtain rfl : d1 = d := by injection h
        refine ⟨rfl, ?_⟩
        unfold fetchOne
        rw [lookup_dictInsert_self]
    · have hf : fetchOne P c t s e = ⟨none, c, true⟩ := by
        unfold fetchOne
        rw [hc, hp]
      rw [hf] at h
      dsimp only at h
      rw [hc] at h
      exact absurd h (by simp)
  · have hf : fetchOne P c t s e = ⟨some d0, c, false⟩ := by
      unfold fetchOne
      rw [hc]
    rw [hf] at h ⊢
    dsimp only at h ⊢
    rw [hc] at h
    obtain rfl : d0 = d := by injection h
    refine ⟨rfl, ?_⟩
    unfold fetchOne
    rw [hc]

/-- C1 witness: with an empty cache and a provider yielding one non-empty
series, the first call persists a snapshot and the theorem applies. -/
theorem fetch_cache_hit_idempotent_witness :
    ((fetchOne (fun _ _ _ => ProviderResult.success [⟨"2024-01-02", 1, 2, 0, 1, 5⟩])
        [] "AAPL" "2024-01-01" "2024-01-03").cache).lookup
      (cacheFilePath "AAPL" "2024-01-01" "2024-01-03") =
      some [⟨"2024-01-02", 1, 2, 0, 1, 5⟩] ∧
    (fetchOne (fun _ _ _ => ProviderResult.success [⟨"2024-01-02", 1, 2, 0, 1, 5⟩])
        [] "AAPL" "2024-01-01" "2024-01-03").data = some [⟨"2024-01-02", 1, 2, 0, 1, 5⟩] ∧
    fetchOne (fun _ _ _ => ProviderResult.success [⟨"2024-01-02", 1, 2, 0, 1, 5⟩])
        ((fetchOne (fun _ _ _ => ProviderResult.success [⟨"2024-01-02", 1, 2, 0, 1, 5⟩])
          [] "AAPL" "2024-01-01" "2024-01-03").cache) "AAPL" "2024-01-01" "2024-01-03" =
      ⟨some [⟨"2024-01-02", 1, 2, 0, 1, 5⟩],
        (fetchOne (fun _ _ _ => ProviderResult.success [⟨"2024-01-02", 1, 2, 0, 1, 5⟩])
          [] "AAPL" "2024-01-01" "2024-01-03").cache, false⟩ := by
  refine ⟨rfl, ?_⟩
  exact fetch_cache_hit_idempotent _ _ "AAPL" "2024-01-01" "2024-01-03"
    [⟨"2024-01-02", 1, 2, 0, 1, 5⟩] rfl

/-- C2: the cache file is named `sanitize(ticker) + "_" + start + "_" + end`
(plus the `.csv` extension), where `sanitize` replaces every `.` by `_`;
consequently `"BT.A"` and `"BT_A"` resolve to the same cache key for every
start and end — the collision exists. -/
theorem cache_key_collision (s e : String) :
    (∀ t : String, cacheFileName t s e = sanitize t ++ "_" ++ s ++ "_" ++ e ++ ".csv") ∧
    sanitize "BT.A" = "BT_A" ∧
    cacheFileName "BT.A" s e = cacheFileName "BT_A" s e ∧
    cacheFilePath "BT.A" s e = cacheFilePath "BT_A" s e := by
  have hs : sanitize "BT.A" = sanitize "BT_A" := by decide
  refine ⟨fun t => rfl, by decide, ?_, ?_⟩
  · simp only [cacheFileName, hs]
  · simp only [cacheFilePath, cacheFileName, hs]


/-- C3: on a cold cache with collision-free keys, each ticker of the
batch is processed independently: the returned mapping contains exactly
the tickers for which the provider yielded a non-empty series (in
order), a failing or empty ticker is simply absent (no exception ends
the batch — the function is total), and no snapshot is cached for a
skipped ticker. -/
theorem download_batch_independent (P : Provider) (c : Cache) (tickers : List String)
    (s e : String)
    (hk : (tickers.map (fun t => cacheFilePath t s e)).Nodup)
    (hc : ∀ t ∈ tickers, c.lookup (cacheFilePath t s e) = none) :
    (download_and_cache_data P c tickers s e).1 = expectedData P s e tickers ∧
    (∀ t ∈ tickers, providerFails P t s e = true →
      ((download_and_cache_data P c tickers s e).2).lookup (cacheFilePath t s e) = none) := by
  constructor
  · have h := downloadLoop_cold P s e tickers [] c hk hc (fun t _ => rfl)
    simpa [download_and_cache_data] using h
  · intro t ht hf
    exact downloadLoop_not_cached P s e tickers [] c t hk hc ht hf

/-- C3 witness: a two-ticker batch with one failing and one succeeding
ticker returns a mapping containing only the succeeding ticker, and the
failing ticker leaves no cache entry. -/
theorem download_batch_independent_witness :
    (((["GOOD", "BAD"] : List String).map
        (fun t => cacheFilePath t "2024-01-01" "2024-01-03")).Nodup ∧
      (∀ t ∈ (["GOOD", "BAD"] : List String),
        (([] : Cache).lookup (cacheFilePath t "2024-01-01" "2024-01-03")) = none)) ∧
    ((download_and_cache_data
        (fun t _ _ => if t = "GOOD" then ProviderResult.success [⟨"2024-01-02", 1, 2, 0, 1, 5⟩]
          else ProviderResult.failure)
        [] ["GOOD", "BAD"] "2024-01-01" "2024-01-03").1 =
      expectedData
        (fun t _ _ => if t = "GOOD" then ProviderResult.success [⟨"2024-01-02", 1, 2, 0, 1, 5⟩]
          else ProviderResult.failure)
        "2024-01-01" "2024-01-03" ["GOOD", "BAD"] ∧
     (∀ t ∈ (["GOOD", "BAD"] : List String),
        providerFails
          (fun t _ _ => if t = "GOOD" then ProviderResult.success [⟨"2024-01-02", 1, 2, 0, 1, 5⟩]
            else ProviderResult.failure)
          t "2024-01-01" "2024-01-03" = true →
        ((download_and_cache_data
            (fun t _ _ => if t = "GOOD" then ProviderResult.success [⟨"2024-01-02", 1, 2, 0, 1, 5⟩]
              else ProviderResult.failure)
            [] ["GOOD", "BAD"] "2024-01-01" "2024-01-03").2).lookup
          (cacheFilePath t "2024-01-01" "2024-01-03") = none)) :=
  ⟨⟨by decide, by decide⟩,
    download_batch_independent
      (fun t _ _ => if t = "GOOD" then ProviderResult.success [⟨"2024-01-02", 1, 2, 0, 1, 5⟩]
        else ProviderResult.failure)
      [] ["GOOD", "BAD"] "2024-01-01" "2024-01-03" (by decide) (by decide)⟩

/-- C4: over a 5-item ticker list, input `"1,3,4"` is accepted and yields
exactly the 1st, 3rd and 4th tickers in that order; `"1,,3"` and `"1-3"`
are rejected (re-prompted); and for every input, if any parsed index is
outside `[1, length]` the whole input is rejected and no tickers are
returned. -/
theorem get_ticker_choices_spec (t1 t2 t3 t4 t5 : String) (tickers : List String)
    (input : String) (i : Nat) (hi : i ∈ parsedIndices input)
    (hout : i = 0 ∨ tickers.length < i) :
    get_ticker_choices [t1, t2, t3, t4, t5] "1,3,4" = some [t1, t3, t4] ∧
    get_ticker_choices [t1, t2, t3, t4, t5] "1,,3" = none ∧
    get_ticker_choices [t1, t2, t3, t4, t5] "1-3" = none ∧
    get_ticker_choices tickers input = none := by
  refine ⟨rfl, rfl, rfl, ?_⟩
  unfold get_ticker_choices
  by_cases hm : matchesTickerInput (pyStrip input) = true
  · rw [if_pos hm]
    have hall : ¬ (parsedIndices input).all (fun idx => 1 ≤ idx && idx ≤ tickers.length) = true := by
      intro hall
      have := List.all_eq_true.mp hall i hi
      rcases hout with h0 | hlen
      · subst h0
        simp at this
      · simp only [Bool.and_eq_true, decide_eq_true_eq] at this
        exact absurd this.2 (Nat.not_le_of_lt hlen)
    rw [if_neg hall]
  · rw [if_neg hm]

/-- C4 witness: concrete instantiation with the 5-item list
`["A","B","C","D","E"]` and out-of-range input `"9"`. -/
theorem get_ticker_choices_spec_witness :
    (9 ∈ parsedIndices "9" ∧ (9 = 0 ∨ (["A", "B", "C", "D", "E"] : List String).length < 9)) ∧
    (get_ticker_choices ["A", "B", "C", "D", "E"] "1,3,4" = some ["A", "C", "D"] ∧
     get_ticker_choices ["A", "B", "C", "D", "E"] "1,,3" = none ∧
     get_ticker_choices ["A", "B", "C", "D", "E"] "1-3" = none ∧
     get_ticker_choices ["A", "B", "C", "D", "E"] "9" = none) :=
  ⟨⟨by decide, by decide⟩,
    get_ticker_choices_spec "A" "B" "C" "D" "E" ["A", "B", "C", "D", "E"] "9" 9
      (by decide) (by decide)⟩

/-- C5: a date input is accepted exactly when it matches the pattern
four digits, dash, two digits, dash, two digits — with no check that it
is a real calendar date: `"2024-01-05"` and `"2024-02-31"` are accepted
while `"2024/01/05"` and `"24-01-05"` are rejected (re-prompted). -/
theorem get_date_spec :
    get_date "2024-01-05" = some "2024-01-05" ∧
    get_date "2024-02-31" = some "2024-02-31" ∧
    get_date "2024/01/05" = none ∧
    get_date "24-01-05" = none ∧
    (∀ s : String, get_date s = if isYMD (pyStrip s).data then some (pyStrip s) else none) ∧
    (∀ s : String, isYMD s.data = true ↔
      ∃ y1 y2 y3 y4 m1 m2 d1 d2 : Char,
        s.data = [y1, y2, y3, y4, '-', m1, m2, '-', d1, d2] ∧
        (y1.isDigit && y2.isDigit && y3.isDigit && y4.isDigit &&
          m1.isDigit && m2.isDigit && d1.isDigit && d2.isDigit) = true) := by
  refine ⟨by decide, by decide, by decide, by decide, fun s => rfl, fun s => ?_⟩
  constructor
  · intro h
    unfold isYMD at h
    split at h
    · rename_i y1 y2 y3 y4 h1 m1 m2 h2 d1 d2 heq
      simp only [Bool.and_eq_true, decide_eq_true_eq] at h
      obtain ⟨⟨⟨⟨⟨⟨⟨⟨⟨hy1, hy2⟩, hy3⟩, hy4⟩, hh1⟩, hm1⟩, hm2⟩, hh2⟩, hd1⟩, hd2⟩ := h
      subst hh1
      subst hh2
      exact ⟨y1, y2, y3, y4, m1, m2, d1, d2, heq,
        by simp [hy1, hy2, hy3, hy4, hm1, hm2, hd1, hd2]⟩
    · exact absurd h (by simp)
  · rintro ⟨y1, y2, y3, y4, m1, m2, d1, d2, heq, hd⟩
    simp only [Bool.and_eq_true, decide_eq_true_eq] at hd
    obtain ⟨⟨⟨⟨⟨⟨⟨hy1, hy2⟩, hy3⟩, hy4⟩, hm1⟩, hm2⟩, hd1⟩, hd2⟩ := hd
    unfold isYMD
    rw [heq]
    simp [hy1, hy2, hy3, hy4, hm1, hm2, hd1, hd2]

/-- C6: once both dates are collected, a start date string
lexicographically greater than the end date string terminates the run
fatally before any fetch (the outcome is the same whatever the provider,
cache or tickers — nothing is fetched), while any non-violating pair
proceeds past the date check instead of exiting there. -/
theorem main_date_order_fatal (P Q : Provider) (c c1 : Cache) (T T1 : List String)
    (s e : String) (h : pyStrLt e s = true) :
    mainAfterDates P c T s e = RunOutcome.exitDateOrder ∧
    mainAfterDates P c T s e = mainAfterDates Q c1 T1 s e ∧
    (∀ s1 e1 : String, ¬ pyStrLt e1 s1 = true →
      mainAfterDates P c T s1 e1 ≠ RunOutcome.exitDateOrder) := by
  refine ⟨?_, ?_, ?_⟩
  · unfold mainAfterDates
    rw [if_pos h]
  · unfold mainAfterDates
    rw [if_pos h, if_pos h]
  · intro s1 e1 h1
    unfold mainAfterDates
    rw [if_neg h1]
    by_cases hd : (download_and_cache_data P c T s1 e1).1.isEmpty = true
    · rw [if_pos hd]
      exact fun hcon => RunOutcome.noConfusion hcon
    · rw [if_neg hd]
      exact fun hcon => RunOutcome.noConfusion hcon

/-- C6 witness: start `"2024-02-01"` after end `"2024-01-01"` is fatal at
the date check for a concrete provider, cache and ticker list. -/
theorem main_date_order_fatal_witness :
    pyStrLt "2024-01-01" "2024-02-01" = true ∧
    (mainAfterDates (fun _ _ _ => ProviderResult.failure) [] ["AAPL"] "2024-02-01" "2024-01-01" =
        RunOutcome.exitDateOrder ∧
      mainAfterDates (fun _ _ _ => ProviderResult.failure) [] ["AAPL"] "2024-02-01" "2024-01-01" =
        mainAfterDates (fun _ _ _ => ProviderResult.success []) [] [] "2024-02-01" "2024-01-01" ∧
      (∀ s1 e1 : String, ¬ pyStrLt e1 s1 = true →
        mainAfterDates (fun _ _ _ => ProviderResult.failure) [] ["AAPL"] s1 e1 ≠
          RunOutcome.exitDateOrder)) :=
  ⟨by decide,
    main_date_order_fatal (fun _ _ _ => ProviderResult.failure)
      (fun _ _ _ => ProviderResult.success []) [] [] ["AAPL"] []
      "2024-02-01" "2024-01-01" (by decide)⟩

/-- C7: with the date order respected, if the batch fetch yields an empty
mapping the run exits fatally and never reaches the rendering stage. -/
theorem main_empty_batch_fatal (P : Provider) (c : Cache) (T : List String) (s e : String)
    (h1 : ¬ pyStrLt e s = true)
    (h2 : (download_and_cache_data P c T s e).1 = []) :
    mainAfterDates P c T s e = RunOutcome.exitNoData ∧
    ∀ (dm : List (String × Series)) (cm : Cache),
      mainAfterDates P c T s e ≠ RunOutcome.proceed dm cm := by
  have hd : (download_and_cache_data P c T s e).1.isEmpty = true := by
    rw [h2]
    rfl
  constructor
  · unfold mainAfterDates
    rw [if_neg h1, if_pos hd]
  · intro dm cm
    unfold mainAfterDates
    rw [if_neg h1, if_pos hd]
    exact fun hcon => RunOutcome.noConfusion hcon

/-- C7 witness: a provider that always raises produces an empty mapping
for ticker list `["AAPL"]`, and the run exits before rendering. -/
theorem main_empty_batch_fatal_witness :
    (¬ pyStrLt "2024-01-03" "2024-01-01" = true ∧
      (download_and_cache_data (fun _ _ _ => ProviderResult.failure) [] ["AAPL"]
        "2024-01-01" "2024-01-03").1 = []) ∧
    (mainAfterDates (fun _ _ _ => ProviderResult.failure) [] ["AAPL"] "2024-01-01" "2024-01-03" =
        RunOutcome.exitNoData ∧
      ∀ (dm : List (String × Series)) (cm : Cache),
        mainAfterDates (fun _ _ _ => ProviderResult.failure) [] ["AAPL"]
          "2024-01-01" "2024-01-03" ≠ RunOutcome.proceed dm cm) :=
  ⟨⟨by decide, rfl⟩,
    main_empty_batch_fatal (fun _ _ _ => ProviderResult.failure) [] ["AAPL"]
      "2024-01-01" "2024-01-03" (by decide) rfl⟩

/-- C8 counterexample: the claim says every input outside the choices 1–4
yields the default line plot, but the non-numeric input `"abc"` makes
`int(input())` raise an uncaught `ValueError`, aborting the run instead
of rendering the default. -/
theorem choosePlot_counterexample :
    choosePlot "abc" = Except.error () ∧
    choosePlot "abc" ≠ Except.ok PlotVariant.line :=
  ⟨rfl, fun hcon => Except.noConfusion hcon⟩

/-- C8 (amended): an input that `int()` parses as an integer outside 1–4
falls to the `else` branch and renders the default matplotlib line plot;
only integer inputs enjoy this default — non-integer input raises. -/
theorem choosePlot_integer_default (s : String) (n : Int) (hp : pythonInt s = some n)
    (h1 : n ≠ 1) (h2 : n ≠ 2) (h3 : n ≠ 3) (h4 : n ≠ 4) :
    choosePlot s = Except.ok PlotVariant.line := by
  unfold choosePlot
  rw [hp]
  simp [h1, h2, h3, h4]

/-- C8 witness: the integer input `"7"` is outside 1–4 and renders the
default line plot. -/
theorem choosePlot_integer_default_witness :
    (pythonInt "7" = some 7 ∧ (7 : Int) ≠ 1 ∧ (7 : Int) ≠ 2 ∧ (7 : Int) ≠ 3 ∧ (7 : Int) ≠ 4) ∧
    choosePlot "7" = Except.ok PlotVariant.line :=
  ⟨⟨by decide, by decide, by decide, by decide, by decide⟩,
    choosePlot_integer_default "7" 7 (by decide) (by decide) (by decide) (by decide) (by decide)⟩

/-- C9: for a series of at least 20 rows, the derived `MA20` column keeps
the series length (early rows are missing, not dropped), its entry at row
20 (1-indexed, so index 19) is the arithmetic mean of the Close values of
rows 1–20, and rows 1–19 are missing. -/
theorem ma20_spec (s : Series) (h : 20 ≤ s.length) :
    (ma20 s).length = s.length ∧
    (ma20 s)[19]? = some (some (((closes s).take 20).sum / 20)) ∧
    (∀ i : Nat, i < 19 → (ma20 s)[i]? = some none) := by
  have hlen : (closes s).length = s.length := List.length_map _ _
  refine ⟨?_, ?_, ?_⟩
  · simp [ma20, rollingMean, hlen]
  · have h19 : 19 < (closes s).length := by omega
    simp only [ma20, rollingMean, List.getElem?_map, List.getElem?_range h19]
    norm_num
  · intro i hi
    have hin : i < (closes s).length := by omega
    simp only [ma20, rollingMean, List.getElem?_map, List.getElem?_range hin]
    have : ¬ 20 ≤ i + 1 := by omega
    simp [this, hi]

/-- C9 witness: a constant 20-row series has `MA20` defined exactly at the
20th row, with value the mean of the twenty Close values. -/
theorem ma20_spec_witness :
    20 ≤ (List.replicate 20 (⟨"d", 1, 1, 1, 1, 1⟩ : Row)).length ∧
    ((ma20 (List.replicate 20 (⟨"d", 1, 1, 1, 1, 1⟩ : Row))).length =
        (List.replicate 20 (⟨"d", 1, 1, 1, 1, 1⟩ : Row)).length ∧
      (ma20 (List.replicate 20 (⟨"d", 1, 1, 1, 1, 1⟩ : Row)))[19]? =
        some (some (((closes (List.replicate 20 (⟨"d", 1, 1, 1, 1, 1⟩ : Row))).take 20).sum / 20)) ∧
      (∀ i : Nat, i < 19 →
        (ma20 (List.replicate 20 (⟨"d", 1, 1, 1, 1, 1⟩ : Row)))[i]? = some none)) :=
  ⟨by decide, ma20_spec (List.replicate 20 (⟨"d", 1, 1, 1, 1, 1⟩ : Row)) (by decide)⟩

/-- C10: every renderer variant names its artifact from the originally
selected tickers joined with underscores, with `/` replaced by `_` and
`.` left untouched — so a ticker containing `.` appears verbatim in the
plot/HTML file name, while the cache file name for the same ticker has
the `.` replaced by `_`. -/
theorem renderer_filenames_keep_dot (ts : List String) (s e : String)
    (hdot : '.' ∈ (String.intercalate "_" ts).data) :
    plotDataFilename ts s e =
      "stock_plot_" ++ safe_tickers ts ++ "_" ++ s ++ "_to_" ++ e ++ ".png" ∧
    snsPlotDataFilename ts s e = plotDataFilename ts s e ∧
    plotDataFacetsFilename ts s e =
      "stock_plot_facets_" ++ safe_tickers ts ++ "_" ++ s ++ "_to_" ++ e ++ ".png" ∧
    plotDataInteractiveFilename ts s e =
      "stock_plot_interactive_" ++ safe_tickers ts ++ "_" ++ s ++ "_to_" ++ e ++ ".html" ∧
    '.' ∈ (safe_tickers ts).data ∧
    (∀ t : String, '.' ∉ (sanitize t).data) := by
  refine ⟨rfl, rfl, rfl, rfl, ?_, ?_⟩
  · exact List.mem_map.mpr ⟨'.', hdot, by decide⟩
  · intro t hmem
    obtain ⟨c0, hc0, hfc⟩ := List.mem_map.mp hmem
    by_cases heq : c0 = '.'
    · subst heq
      exact absurd hfc (by decide)
    · rw [if_neg heq] at hfc
      exact heq hfc

/-- C10 witness: for the dotted ticker `"BT.A"` the plot file name keeps
the dot while the cache file name replaces it. -/
theorem renderer_filenames_keep_dot_witness :
    '.' ∈ (String.intercalate "_" ["BT.A"]).data ∧
    (plotDataFilename ["BT.A"] "2024-01-01" "2024-02-01" =
      "stock_plot_" ++ safe_tickers ["BT.A"] ++ "_" ++ "2024-01-01" ++ "_to_" ++
        "2024-02-01" ++ ".png" ∧
    snsPlotDataFilename ["BT.A"] "2024-01-01" "2024-02-01" =
      plotDataFilename ["BT.A"] "2024-01-01" "2024-02-01" ∧
    plotDataFacetsFilename ["BT.A"] "2024-01-01" "2024-02-01" =
      "stock_plot_facets_" ++ safe_tickers ["BT.A"] ++ "_" ++ "2024-01-01" ++ "_to_" ++
        "2024-02-01" ++ ".png" ∧
    plotDataInteractiveFilename ["BT.A"] "2024-01-01" "2024-02-01" =
      "stock_plot_interactive_" ++ safe_tickers ["BT.A"] ++ "_" ++ "2024-01-01" ++ "_to_" ++
        "2024-02-01" ++ ".html" ∧
    '.' ∈ (safe_tickers ["BT.A"]).data ∧
    (∀ t : String, '.' ∉ (sanitize t).data)) :=
  ⟨by decide, renderer_filenames_keep_dot ["BT.A"] "2024-01-01" "2024-02-01" (by decide)⟩

end StockShii
